import Mathlib

/- Verification development for the Aethero RDFM Artifact GUI, centred on the
Docker container artifact builder. The Python source functions are shallowly
embedded as Lean definitions: Python strings become String, Python lists
become List, and every interaction with the outside world (subprocess exit
codes, filesystem queries, dialog results) is made an explicit parameter of
the embedded function, so that one run of a Python function corresponds to
one evaluation of its embedding. -/

namespace ArtifactGui

/-- Helper for proving String equations through the underlying character
list. -/
theorem stringDataEq {a b : String} (h : a.data = b.data) : a = b := by
  cases a; cases b; exact congrArg String.mk h

/-- Model of pathlib Path.name for a file path: the component after the last
slash. -/
def pathName (p : String) : String :=
  String.mk ((p.data.reverse.takeWhile (fun c => c ≠ '/')).reverse)

/-- Model of the Python newline join of a list of strings, as used for the
inner index lines. -/
def joinLinesNL : List String → String
  | [] => ""
  | [x] => x
  | x :: y :: rest => x ++ "\n" ++ joinLinesNL (y :: rest)

/-- One entry of the image list after resolution, embedding the Python
triple of kind, source and resolved path used by the docker tab. The kind is
kept as a string because the source dispatches on the string values "file"
and "docker". -/
structure ResolvedImage where
  kind : String
  source : String
  path : String
deriving DecidableEq

/-- Embedding of DockerCreator._generate_index_contents
(src/artifact_gui/tabs/artifact_tabs/docker.py, lines 943-979). The inner
index content is the compose file name followed by the image filenames,
joined by newlines with one trailing newline; the outer index content is the
single line naming the inner index. The method additionally emits log
events, which do not influence the returned pair. -/
def generateIndexContents (composeFile : String) (imagePaths : List ResolvedImage)
    (appName : String) : String × String :=
  let imageFilenames := imagePaths.map (fun img => pathName img.path)
  let innerIndexLines := pathName composeFile :: imageFilenames
  let innerIndexContent := joinLinesNL innerIndexLines ++ "\n"
  let outerIndexContent := appName ++ "/index\n"
  (innerIndexContent, outerIndexContent)

/-- Embedding of the inner index literal built by the legacy single-image
pipeline inside create_artifact (src/app/tabs/artifact_tabs/docker.py,
lines 681-684): the compose file name and the single image filename, each on
its own newline-terminated line. For the tarball-kind image the filename is
the final component of the tarball path. -/
def legacyInnerIndexContent (composePath imageTarballPath : String) : String :=
  pathName composePath ++ "\n" ++ pathName imageTarballPath ++ "\n"

/-- Embedding of the outer index literal built by the legacy single-image
pipeline (src/app/tabs/artifact_tabs/docker.py, lines 692-693). -/
def legacyOuterIndexContent (appName : String) : String :=
  appName ++ "/index\n"

/-- String.join distributes over cons. -/
theorem stringJoinCons (a : String) (l : List String) :
    String.join (a :: l) = a ++ String.join l := by
  apply stringDataEq
  simp [String.join_eq, String.data_append]

/-- The newline join of a nonempty line list followed by one trailing newline
is the concatenation of the newline-terminated lines. -/
theorem joinLinesNLConsNewline (x : String) (xs : List String) :
    joinLinesNL (x :: xs) ++ "\n"
      = String.join ((x :: xs).map (fun l => l ++ "\n")) := by
  induction xs generalizing x with
  | nil =>
    apply stringDataEq
    simp [joinLinesNL, String.join_eq, String.data_append]
  | cons y ys ih =>
    have hys := ih y
    apply stringDataEq
    have hdata := congrArg String.data hys
    simp only [String.data_append, String.join_eq] at hdata
    simp [joinLinesNL, String.join_eq, String.data_append, hdata]

/-- C3: for every compose file name, every app name and every ordered
sequence of resolved image paths, the inner manifest generated by
_generate_index_contents is the concatenation of one newline-terminated line
per entry, the compose file name first and then each image filename in
exactly the sequence order, and the outer manifest is exactly the single
line of the app name followed by /index with a trailing newline; the
generation is a Lean function of these inputs and hence deterministic. In
particular, for the two file-sourced images a.tar.gz then b.tar.gz with
compose name C, the inner manifest is the verbatim string with lines C,
a.tar.gz, b.tar.gz. -/
theorem c3_index_manifest_contents :
    (∀ (composeFile : String) (imagePaths : List ResolvedImage) (appName : String),
      (generateIndexContents composeFile imagePaths appName).1
        = String.join
            ((pathName composeFile :: imagePaths.map (fun img => pathName img.path)).map
              (fun l => l ++ "\n"))
      ∧ (generateIndexContents composeFile imagePaths appName).2
        = appName ++ "/index\n")
    ∧ generateIndexContents "C"
        [⟨"file", "a.tar.gz", "a.tar.gz"⟩, ⟨"file", "b.tar.gz", "b.tar.gz"⟩] "myapp"
      = ("C\na.tar.gz\nb.tar.gz\n", "myapp/index\n") := by
  refine ⟨fun composeFile imagePaths appName => ⟨?_, rfl⟩, by decide⟩
  exact joinLinesNLConsNewline _ _

/-- C9: on a request with exactly one tarball-kind image, the inner and
outer index contents written by the legacy single-image pipeline coincide
with the pair produced by the multi-image generator _generate_index_contents
on the same compose file, single image path and app name: the multi-image
model subsumes the single-image case. -/
theorem c9_single_image_subsumed :
    ∀ (composePath imageTarballPath appName : String),
      (legacyInnerIndexContent composePath imageTarballPath,
          legacyOuterIndexContent appName)
        = generateIndexContents composePath
            [⟨"file", imageTarballPath, imageTarballPath⟩] appName := by
  intro composePath imageTarballPath appName
  unfold legacyInnerIndexContent legacyOuterIndexContent generateIndexContents
  simp only [List.map, joinLinesNL]

/-- Kinds of messages put on the thread-safe output queue. The textual
payloads are not modelled (several embed a one-decimal rendering of a float);
the claims depend only on the kind tags, in particular on the terminal
command-finished tag. -/
inductive QueueEvent
| clear
| status
| commandStarted
| commandFinished
| cancelRequested
| output
deriving DecidableEq

/-- Observations of one completed (no Python exception) run of the docker
save process piped into gzip inside _export_docker_image: the exit code of
each process, the byte length of the gzip output, and the captured stderr
texts, with none modelling empty captured bytes. -/
structure ExportObservation where
  dockerReturncode : Int
  gzipReturncode : Int
  gzipOutputLen : Nat
  dockerStderr : Option String
  gzipStderr : Option String
deriving DecidableEq

/-- The distinct human-readable messages _export_docker_image produces, one
constructor per verbatim message template of the source: cancellation,
save failure carrying the captured stderr text plus the three-cause hint
block, gzip failure carrying its stderr text, the zero-byte silent-failure
text, and the success text carrying the megabyte value (the source divides
the byte length by 1024 * 1024 and renders it with one decimal; the exact
rational is kept here). -/
inductive ExportMessage
| cancelled
| saveFailed (stderrText : Option String)
| gzipFailed (stderrText : Option String)
| emptyOutput
| success (sizeMB : ℚ)
deriving DecidableEq

/-- Embedding of DockerCreator._export_docker_image from
src/app/tabs/artifact_tabs/docker.py (lines 260-351), restricted to runs
that complete without a Python exception: each error branch returns early,
so the result is a failure exactly on signal termination (exit code -15 or
-9 of the save process), a non-zero save exit, a non-zero gzip exit or an
empty gzip output, and the success tuple otherwise. -/
def appExportDockerImage (o : ExportObservation) : Bool × ExportMessage :=
  if o.dockerReturncode = -15 ∨ o.dockerReturncode = -9 then
    (false, ExportMessage.cancelled)
  else if o.dockerReturncode ≠ 0 then
    (false, ExportMessage.saveFailed o.dockerStderr)
  else if o.gzipReturncode ≠ 0 then
    (false, ExportMessage.gzipFailed o.gzipStderr)
  else if o.gzipOutputLen = 0 then
    (false, ExportMessage.emptyOutput)
  else
    (true, ExportMessage.success ((o.gzipOutputLen : ℚ) / (1024 * 1024)))

/-- Embedding of DockerCreator._export_docker_image from
src/artifact_gui/tabs/artifact_tabs/docker.py (lines 591-690), restricted to
runs that complete without a Python exception. This refactored variant
assigns return_tuple in its branch chain but never returns there; the
subsequent unconditional statements write the output file and overwrite
return_tuple with the success value before the single return statement, so
the branch results are dead stores (kept here as deadReturnTuple to mirror
the source) and every non-exception run yields the success tuple. -/
def guiExportDockerImage (o : ExportObservation) : Bool × ExportMessage :=
  let deadReturnTuple : Option (Bool × ExportMessage) :=
    if o.dockerReturncode = -15 ∨ o.dockerReturncode = -9 then
      some (false, ExportMessage.cancelled)
    else if o.dockerReturncode ≠ 0 then
      some (false, ExportMessage.saveFailed o.dockerStderr)
    else if o.gzipReturncode ≠ 0 then
      some (false, ExportMessage.gzipFailed o.gzipStderr)
    else if o.gzipOutputLen = 0 then
      some (false, ExportMessage.emptyOutput)
    else
      none
  let _ := deadReturnTuple
  (true, ExportMessage.success ((o.gzipOutputLen : ℚ) / (1024 * 1024)))

/-- C1: evaluation of the code at the failing input, with the general
behaviour of both variants. The artifact_gui variant of _export_docker_image
returns the success tuple on every non-exception run, because its
branch-assigned error tuples are unconditionally overwritten before the
single return; in particular, on the observation where the save process
exits with code 1 (for example, the daemon is not running), gzip exits 0 and
the output is empty, it reports success instead of the save-failure message
the claim requires. The app variant, whose branches return early, fails on
that observation and in general fails exactly when the save process was
signal-terminated, the save or gzip process exited non-zero, or the output
was empty — exactly as the claim states. -/
theorem c1_export_failure_reporting :
    (∀ o : ExportObservation, (guiExportDockerImage o).1 = true)
      ∧ guiExportDockerImage ⟨1, 0, 0, none, none⟩
        = (true, ExportMessage.success 0)
      ∧ appExportDockerImage ⟨1, 0, 0, none, none⟩
        = (false, ExportMessage.saveFailed none)
      ∧ (∀ o : ExportObservation,
          ((appExportDockerImage o).1 = false ↔
            (o.dockerReturncode = -15 ∨ o.dockerReturncode = -9)
              ∨ o.dockerReturncode ≠ 0 ∨ o.gzipReturncode ≠ 0
              ∨ o.gzipOutputLen = 0)) := by
  refine ⟨fun o => rfl, by simp [guiExportDockerImage], by simp [appExportDockerImage],
    fun o => ?_⟩
  unfold appExportDockerImage
  split_ifs with h1 h2 h3 h4 <;> simp_all

/-- Unit of a reported size. -/
inductive SizeUnit
| mb
| gb
deriving DecidableEq

/-- A size report: the numeric value the source formats with one decimal,
kept exact as a rational (the divisions by powers of two the source performs
on a double are exact for every integer byte count below 2 to the 53, so the
unit selection is unaffected by the floating-point representation), together
with the unit named in the message. -/
structure SizeReport where
  value : ℚ
  unit : SizeUnit
deriving DecidableEq

/-- Embedding of the size report in the success message of
_export_docker_image (size_mb = len(gzip_output) / (1024 * 1024) with the
literal megabyte unit in the template; src/artifact_gui/tabs/artifact_tabs/
docker.py, lines 676-678, identical in the app variant). -/
def exportSizeReport (gzipOutputLen : Nat) : SizeReport :=
  ⟨(gzipOutputLen : ℚ) / (1024 * 1024), SizeUnit.mb⟩

/-- Embedding of DockerCreator._format_file_size
(src/artifact_gui/tabs/artifact_tabs/docker.py, lines 1097-1110): gigabytes
when size divided by 1024 cubed is at least one, megabytes otherwise. -/
def formatFileSize (sizeBytes : Nat) : SizeReport :=
  let gb : ℚ := (sizeBytes : ℚ) / 1024 ^ 3
  if 1 ≤ gb then ⟨gb, SizeUnit.gb⟩
  else ⟨(sizeBytes : ℚ) / 1024 ^ 2, SizeUnit.mb⟩

/-- C7: counterexample. For an export whose gzip output is 2 to the 31 bytes
(2 GiB, at or above 1 GB), the success message of _export_docker_image still
reports the size in megabytes, not in gigabytes as the claim requires: the
export path hard-codes the megabyte unit. -/
theorem c7_export_size_unit_counterexample :
    (exportSizeReport (2 ^ 31)).unit = SizeUnit.mb
      ∧ SizeUnit.mb ≠ SizeUnit.gb
      ∧ (2 ^ 30 : ℕ) ≤ 2 ^ 31 := by
  refine ⟨rfl, by decide, by norm_num⟩

/-- C7 amended: the success message of the image export reports the size in
megabytes for every output length; the magnitude-scaled unit choice the
claim describes is implemented by _format_file_size, which is applied to the
size reported for pre-existing tarball images and selects gigabytes exactly
when the byte count is at least 2 to the 30 and megabytes below. -/
theorem c7_size_unit_scaling :
    (∀ len : Nat, (exportSizeReport len).unit = SizeUnit.mb)
    ∧ (∀ sizeBytes : Nat,
        (formatFileSize sizeBytes).unit = SizeUnit.gb ↔ (2 ^ 30 : ℕ) ≤ sizeBytes) := by
  constructor
  · intro len
    rfl
  · intro sizeBytes
    have hiff : (1 : ℚ) ≤ (sizeBytes : ℚ) / 1024 ^ 3 ↔ (2 ^ 30 : ℕ) ≤ sizeBytes := by
      rw [le_div_iff₀ (by positivity), one_mul]
      constructor
      · intro h
        have : ((2 ^ 30 : ℕ) : ℚ) ≤ (sizeBytes : ℚ) := by push_cast; linarith
        exact_mod_cast this
      · intro h
        have : ((2 ^ 30 : ℕ) : ℚ) ≤ (sizeBytes : ℚ) := by exact_mod_cast h
        push_cast at this
        linarith
    by_cases hc : (1 : ℚ) ≤ (sizeBytes : ℚ) / 1024 ^ 3
    · simp only [formatFileSize, if_pos hc]
      simpa using hiff.mp hc
    · simp only [formatFileSize, if_neg hc]
      constructor
      · intro h
        exact absurd h (by simp)
      · intro h
        exact absurd (hiff.mpr h) hc

/-- State of the CLIExecutor fields guarded by process_lock: whether a
process handle is tracked, the is_running flag, and the pending-cancellation
flag. The handle itself is abstracted to its presence; the actual signal
delivery is reported in the result (the try/except around it, which only
logs OS-level delivery errors, is not modelled). -/
structure ExecutorState where
  hasCurrentProcess : Bool
  isRunning : Bool
  cancelRequested : Bool
deriving DecidableEq

/-- Signal sent by one cancel_command invocation. -/
inductive CancelSignal
| kill
| terminate
| noSignal
deriving DecidableEq

/-- Embedding of CLIExecutor.cancel_command (src/artifact_gui/
cli_executor.py, lines 35-78, identical logic in src/app/cli_executor.py,
lines 35-65): result is the new state, the signal sent, the returned
boolean, and the queue events emitted. -/
def cancelCommand (force : Bool) (s : ExecutorState) :
    ExecutorState × CancelSignal × Bool × List QueueEvent :=
  if s.hasCurrentProcess ∧ s.isRunning then
    if force ∨ s.cancelRequested then
      ({ s with cancelRequested := false }, CancelSignal.kill, true,
        [QueueEvent.output, QueueEvent.status, QueueEvent.commandFinished])
    else
      ({ s with cancelRequested := true }, CancelSignal.terminate, true,
        [QueueEvent.output, QueueEvent.status, QueueEvent.cancelRequested])
  else
    (s, CancelSignal.noSignal, false, [])

/-- C5: for every tracked-and-running state, a cancel request with force
false while no cancellation is pending sends the terminate signal, records
the pending cancellation and reports true; a request with force true, or any
request while a cancellation is pending, sends the kill signal; and whenever
no process is tracked or nothing is running, the state is unchanged, no
signal is sent and false is returned. -/
theorem c5_cancel_command_behaviour :
    ∀ (s : ExecutorState) (force : Bool),
      ((s.hasCurrentProcess ∧ s.isRunning ∧ ¬ s.cancelRequested ∧ force = false) →
        (cancelCommand force s).2.1 = CancelSignal.terminate
          ∧ (cancelCommand force s).1.cancelRequested = true
          ∧ (cancelCommand force s).2.2.1 = true)
      ∧ ((s.hasCurrentProcess ∧ s.isRunning ∧ (force = true ∨ s.cancelRequested)) →
        (cancelCommand force s).2.1 = CancelSignal.kill)
      ∧ (¬ (s.hasCurrentProcess ∧ s.isRunning) →
        (cancelCommand force s).1 = s
          ∧ (cancelCommand force s).2.1 = CancelSignal.noSignal
          ∧ (cancelCommand force s).2.2.1 = false) := by
  intro s force
  rcases s with ⟨p, r, c⟩
  cases p <;> cases r <;> cases c <;> cases force <;> decide

/-- C5 witness: the first graceful request on a fresh running state, a
forced request on the same state, a repeated request once a cancellation is
pending, and a request with nothing running, each behaving as the theorem
states. -/
theorem c5_cancel_command_witness :
    ((cancelCommand false ⟨true, true, false⟩).2.1 = CancelSignal.terminate
        ∧ (cancelCommand false ⟨true, true, false⟩).1.cancelRequested = true
        ∧ (cancelCommand false ⟨true, true, false⟩).2.2.1 = true)
      ∧ (cancelCommand true ⟨true, true, false⟩).2.1 = CancelSignal.kill
      ∧ (cancelCommand false ⟨true, true, true⟩).2.1 = CancelSignal.kill
      ∧ ((cancelCommand false ⟨false, false, false⟩).1 = ⟨false, false, false⟩
          ∧ (cancelCommand false ⟨false, false, false⟩).2.1 = CancelSignal.noSignal
          ∧ (cancelCommand false ⟨false, false, false⟩).2.2.1 = false) :=
  ⟨(c5_cancel_command_behaviour ⟨true, true, false⟩ false).1 (by decide),
    (c5_cancel_command_behaviour ⟨true, true, false⟩ true).2.1 (by decide),
    (c5_cancel_command_behaviour ⟨true, true, true⟩ false).2.1 (by decide),
    (c5_cancel_command_behaviour ⟨false, false, false⟩ false).2.2 (by decide)⟩

/-- Embedding of the scan loop of _is_duplicate_filepath
(src/app/utils.py, lines 119-135): the index of the first listbox row equal
to the given path, or none; when found the source also moves the selection
to that row, which is the index reported here. -/
def firstIdx (items : List String) (filepath : String) : Option Nat :=
  match items with
  | [] => none
  | x :: rest =>
    if filepath = x then some 0 else (firstIdx rest filepath).map (fun i => i + 1)

/-- Embedding of the list mutation performed by browse_file and
browse_directory (src/app/utils.py, lines 138-199) when a listbox is
attached and duplicate highlighting is on, as in the add-file and
add-directory actions of the docker tab: an empty string models a cancelled
dialog; a path already present only moves the selection to its row; a new
path is appended at the end. The result is the new list and the selection
set by the call. -/
def browseFileInsert (items : List String) (filename : String) :
    List String × Option Nat :=
  if filename = "" then (items, none)
  else
    match firstIdx items filename with
    | some i => (items, some i)
    | none => (items ++ [filename], none)

/-- One user action on the additional-files list: choosing a path through a
file or directory dialog, or removing the row at an index (remove_docker_file
deletes the current selection). -/
inductive FileListOp
| add (chosen : String)
| removeAt (index : Nat)

/-- The additional-files list after a sequence of add and remove actions,
starting from the empty list the tab is created with. -/
def applyFileListOps (ops : List FileListOp) : List String :=
  ops.foldl
    (fun items op =>
      match op with
      | FileListOp.add chosen => (browseFileInsert items chosen).1
      | FileListOp.removeAt i => items.eraseIdx i)
    []

/-- A path absent from the list is reported as no duplicate. -/
theorem firstIdxEqNoneOfNotMem {items : List String} {filepath : String}
    (h : filepath ∉ items) : firstIdx items filepath = none := by
  induction items with
  | nil => rfl
  | cons x rest ih =>
    have hx : filepath ≠ x := fun he => h (he ▸ List.mem_cons_self x rest)
    have hrest : filepath ∉ rest := fun hm => h (List.mem_cons_of_mem x hm)
    simp [firstIdx, hx, ih hrest]

/-- A present path is found at an index holding exactly that path. -/
theorem firstIdxMem {items : List String} {filepath : String}
    (h : filepath ∈ items) :
    ∃ i, firstIdx items filepath = some i ∧ items.get? i = some filepath := by
  induction items with
  | nil => cases h
  | cons x rest ih =>
    by_cases hx : filepath = x
    · exact ⟨0, by simp [firstIdx, hx]⟩
    · have hrest : filepath ∈ rest := by
        rcases List.mem_cons.mp h with he | hm
        · exact absurd he hx
        · exact hm
      obtain ⟨i, hfind, hget⟩ := ih hrest
      exact ⟨i + 1, by simp [firstIdx, hx, hfind], by simpa using hget⟩

/-- One add or remove action preserves the no-duplicates invariant. -/
theorem fileListStepNodup {items : List String} (h : items.Nodup)
    (op : FileListOp) :
    (match op with
      | FileListOp.add chosen => (browseFileInsert items chosen).1
      | FileListOp.removeAt i => items.eraseIdx i).Nodup := by
  cases op with
  | removeAt i => exact h.sublist (List.eraseIdx_sublist items i)
  | add chosen =>
    by_cases hempty : chosen = ""
    · simpa [browseFileInsert, hempty] using h
    · rcases hfind : firstIdx items chosen with _ | i
      · have hnot : chosen ∉ items := fun hm => by
          obtain ⟨j, hj, _⟩ := firstIdxMem hm
          rw [hfind] at hj
          cases hj
        have : (items ++ [chosen]).Nodup := by
          rw [List.nodup_append]
          exact ⟨h, List.nodup_singleton chosen, by simpa using hnot⟩
        simpa [browseFileInsert, hempty, hfind] using this
      · simpa [browseFileInsert, hempty, hfind] using h

/-- C10: choosing a path already present through the add-file or
add-directory action never inserts it a second time and instead selects the
existing row holding it, and after every sequence of add and remove actions
starting from the empty list the additional-files list contains no duplicate
entries. -/
theorem c10_no_duplicate_file_paths :
    (∀ (items : List String) (filepath : String),
      filepath ∈ items → filepath ≠ "" →
        (browseFileInsert items filepath).1 = items
          ∧ ∃ i, (browseFileInsert items filepath).2 = some i
              ∧ items.get? i = some filepath)
    ∧ ∀ ops : List FileListOp, (applyFileListOps ops).Nodup := by
  constructor
  · intro items filepath hmem hne
    obtain ⟨i, hfind, hget⟩ := firstIdxMem hmem
    exact ⟨by simp [browseFileInsert, hne, hfind], i,
      by simp [browseFileInsert, hne, hfind], hget⟩
  · intro ops
    have hgen : ∀ (ops : List FileListOp) (items : List String), items.Nodup →
        (ops.foldl
          (fun items op =>
            match op with
            | FileListOp.add chosen => (browseFileInsert items chosen).1
            | FileListOp.removeAt i => items.eraseIdx i)
          items).Nodup := by
      intro ops
      induction ops with
      | nil => intro items h; simpa using h
      | cons op rest ih =>
        intro items h
        exact ih _ (fileListStepNodup h op)
    exact hgen ops [] List.nodup_nil

/-- C10 witness: adding the path a, then b, then a again leaves the list
with the two distinct rows and moves the selection back to row 0, and the
resulting list is duplicate-free. -/
theorem c10_no_duplicate_file_paths_witness :
    (browseFileInsert ["a", "b"] "a").1 = ["a", "b"]
      ∧ (∃ i, (browseFileInsert ["a", "b"] "a").2 = some i
          ∧ (["a", "b"] : List String).get? i = some "a")
      ∧ (applyFileListOps
          [FileListOp.add "a", FileListOp.add "b", FileListOp.add "a"]).Nodup := by
  obtain ⟨h1, h2⟩ :=
    c10_no_duplicate_file_paths.1 ["a", "b"] "a" (by decide) (by decide)
  exact ⟨h1, h2, c10_no_duplicate_file_paths.2 _⟩

/-- Characters removed by the default Python str.strip (the ASCII whitespace
characters; exotic Unicode whitespace is not modelled). -/
def isPySpace (c : Char) : Bool :=
  c == ' ' || c == '\t' || c == '\n' || c == '\x0d' || c == '\x0b' || c == '\x0c'

/-- Model of the Python str.strip() applied when the docker tab reads its
entry fields: leading and trailing whitespace removed. -/
def pyStrip (s : String) : String :=
  String.mk (((s.data.dropWhile isPySpace).reverse.dropWhile isPySpace).reverse)

/-- Embedding of BaseTab.validate_required_fields
(src/artifact_gui/tabs/base_tab.py, lines 379-399) on the ordered field
values: false, with a warning dialog, exactly when some value is empty. -/
def validateRequiredFields (values : List String) : Bool :=
  values.all (fun v => v ≠ "")

/-- A character the artifact-name validation allows: the class of letters,
digits, dot and underscore matched by the complement of the forbidden
regular expression in _validate_docker_fields. -/
def isAllowedArtifactChar (c : Char) : Bool :=
  decide (('a' ≤ c ∧ c ≤ 'z') ∨ ('A' ≤ c ∧ c ≤ 'Z') ∨ ('0' ≤ c ∧ c ≤ '9')
    ∨ c = '.' ∨ c = '_')

/-- Model of re.search with the forbidden-character class of
_validate_docker_fields: true when some character of the string lies outside
the allowed class. -/
def hasForbiddenArtifactChar (s : String) : Bool :=
  s.data.any (fun c => !(isAllowedArtifactChar c))

/-- Embedding of DockerCreator._validate_docker_fields
(src/artifact_gui/tabs/artifact_tabs/docker.py, lines 863-890) on the
already-stripped field values the source builds its required-field
dictionary from: all four required values nonempty, no forbidden character
in the artifact name, and at least one image listed. -/
def validateDockerFields (appName composePath artifactName deviceType : String)
    (dockerImages : List (String × String)) : Bool :=
  if !(validateRequiredFields [appName, composePath, artifactName, deviceType]) then
    false
  else if hasForbiddenArtifactChar artifactName then
    false
  else if dockerImages.length = 0 then
    false
  else
    true

/-- The parameters handed to the background build thread when a submission
is accepted; the temporary workspace is created only inside that thread. -/
structure ArtifactParams where
  appName : String
  composeFile : String
  dockerImages : List (String × String)
  artifactName : String
  deviceType : String
  outputPath : String
  additionalFiles : List String
deriving DecidableEq

/-- Embedding of DockerCreator.create_docker_container_artifact
(src/artifact_gui/tabs/artifact_tabs/docker.py, lines 1243-1288): the entry
values are stripped, the synchronous validation and the compose-path
resolution run, and only on success is the background thread started with
the collected parameters; none models a rejected submission, on which no
thread is started and no filesystem side effect happens. resolveCompose
models resolve_path composed with the existence check (some resolved path
exactly when the compose file exists); resolveOutput models
resolve_output_path, a pure path computation. -/
def createDockerContainerArtifact (rawAppName rawComposePath rawArtifactName
    rawDeviceType rawOutputPath : String)
    (dockerImages : List (String × String)) (additionalFiles : List String)
    (resolveCompose : String → Option String) (resolveOutput : String → String) :
    Option ArtifactParams :=
  let appName := pyStrip rawAppName
  let composePath := pyStrip rawComposePath
  let artifactName := pyStrip rawArtifactName
  let deviceType := pyStrip rawDeviceType
  let outputPath := pyStrip rawOutputPath
  if !(validateDockerFields appName composePath artifactName deviceType dockerImages) then
    none
  else
    match resolveCompose composePath with
    | none => none
    | some composeResolved =>
      some ⟨appName, composeResolved, dockerImages, artifactName, deviceType,
        resolveOutput outputPath, additionalFiles⟩

/-- C4: every submission whose stripped application name, compose path,
artifact name or device type is empty, or whose image list is empty, or
whose stripped artifact name contains a character outside the allowed
letters, digits, dot and underscore, is rejected by the synchronous
validation: create_docker_container_artifact returns none, so the background
thread that creates the temporary workspace is never started and no
filesystem side effect is observable. Field values are compared after the
strip the source applies when reading the entry widgets. -/
theorem c4_invalid_submission_rejected :
    ∀ (rawAppName rawComposePath rawArtifactName rawDeviceType rawOutputPath : String)
      (dockerImages : List (String × String)) (additionalFiles : List String)
      (resolveCompose : String → Option String) (resolveOutput : String → String),
      (pyStrip rawAppName = "" ∨ pyStrip rawComposePath = ""
          ∨ pyStrip rawArtifactName = "" ∨ pyStrip rawDeviceType = ""
          ∨ dockerImages = []
          ∨ hasForbiddenArtifactChar (pyStrip rawArtifactName) = true) →
        createDockerContainerArtifact rawAppName rawComposePath rawArtifactName
            rawDeviceType rawOutputPath dockerImages additionalFiles
            resolveCompose resolveOutput = none := by
  intro rawAppName rawComposePath rawArtifactName rawDeviceType rawOutputPath
    dockerImages additionalFiles resolveCompose resolveOutput h
  have hval : validateDockerFields (pyStrip rawAppName) (pyStrip rawComposePath)
      (pyStrip rawArtifactName) (pyStrip rawDeviceType) dockerImages = false := by
    rcases h with h | h | h | h | h | h
    · simp [validateDockerFields, validateRequiredFields, h]
    · simp [validateDockerFields, validateRequiredFields, h]
    · simp [validateDockerFields, validateRequiredFields, h]
    · simp [validateDockerFields, validateRequiredFields, h]
    · simp [validateDockerFields, h]
    · simp only [validateDockerFields, h]
      split <;> simp
  simp [createDockerContainerArtifact, hval]

/-- C4 witness: a submission whose artifact name holds a space (after
stripping, between two words) is rejected with no side effect. -/
theorem c4_invalid_submission_rejected_witness :
    createDockerContainerArtifact "app" "compose.yml" "bad name" "dev" ""
        [("file", "x.tar.gz")] [] (fun s => some s) (fun s => s) = none :=
  c4_invalid_submission_rejected "app" "compose.yml" "bad name" "dev" ""
    [("file", "x.tar.gz")] [] (fun s => some s) (fun s => s)
    (Or.inr (Or.inr (Or.inr (Or.inr (Or.inr (by decide))))))

/-- Python values yaml.safe_load can return for a compose document, as far
as _on_compose_file_changed inspects them: the null value, booleans,
integers, strings, lists and string-keyed mappings (YAML mappings with
non-string keys and floating-point scalars are not modelled; neither shape
reaches the services lookup in a well-formed compose file). -/
inductive PyVal
| null
| pybool (b : Bool)
| pyint (n : Int)
| pystr (s : String)
| pylist (xs : List PyVal)
| pydict (kvs : List (String × PyVal))

/-- Exceptions relevant to the service-count computation. KeyError and the
parse and I/O errors are in the caught tuple of the source; TypeError is
not. -/
inductive PyExc
| typeError
| keyError
deriving DecidableEq

/-- Python truthiness of a loaded value, deciding the outer guard
if compose_data of the source. -/
def pyTruthy : PyVal → Bool
  | PyVal.null => false
  | PyVal.pybool b => b
  | PyVal.pyint n => n ≠ 0
  | PyVal.pystr s => s ≠ ""
  | PyVal.pylist xs => !xs.isEmpty
  | PyVal.pydict kvs => !kvs.isEmpty

/-- Whether the character list p occurs contiguously inside s, modelling the
Python substring containment test. -/
def charsContain (s p : List Char) : Bool :=
  p.isPrefixOf s || (match s with | [] => false | _ :: rest => charsContain rest p)

/-- Model of the Python membership test services in compose_data: key lookup
on a mapping, element equality on a list (only string elements can equal a
string), substring containment on a string, and a TypeError on the
non-iterable values. -/
def containsServicesKey : PyVal → Except PyExc Bool
  | PyVal.pydict kvs => Except.ok (kvs.any (fun kv => kv.1 = "services"))
  | PyVal.pylist xs =>
    Except.ok (xs.any (fun x => match x with
      | PyVal.pystr s => s = "services"
      | _ => false))
  | PyVal.pystr s => Except.ok (charsContain s.data "services".data)
  | _ => Except.error PyExc.typeError

/-- Model of the Python subscript compose_data of the string key services:
first matching entry of a mapping (KeyError when absent), TypeError on every
other value. -/
def subscriptServices : PyVal → Except PyExc PyVal
  | PyVal.pydict kvs =>
    match kvs.find? (fun kv => kv.1 = "services") with
    | some kv => Except.ok kv.2
    | none => Except.error PyExc.keyError
  | _ => Except.error PyExc.typeError

/-- Model of the Python len builtin on a loaded value: defined on strings,
lists and mappings, a TypeError elsewhere (in particular on the null value a
services key with no entries loads to). -/
def pyLen : PyVal → Except PyExc Nat
  | PyVal.pystr s => Except.ok s.length
  | PyVal.pylist xs => Except.ok xs.length
  | PyVal.pydict kvs => Except.ok kvs.length
  | _ => Except.error PyExc.typeError

/-- Outcome of reading and parsing the compose path, the explicit input of
one run of the service counter: an empty stripped path, a missing file, an
unreadable file (OSError), a yaml.YAMLError, or a parsed value. -/
inductive ComposeSource
| emptyPath
| missingFile
| unreadable
| parseError
| parsed (v : PyVal)

/-- The except clause of the source catches yaml.YAMLError, OSError and
KeyError and turns them into the count 0; every other exception escapes. -/
def catchCaughtExceptions : Except PyExc Nat → Except PyExc Nat
  | Except.error PyExc.keyError => Except.ok 0
  | r => r

/-- Embedding of the service-count computation of
DockerCreator._on_compose_file_changed (src/artifact_gui/tabs/artifact_tabs/
docker.py, lines 763-795): 0 for an empty path, a missing or unreadable
file, a parse error, a falsy document or one without a services member;
otherwise the length of the services member. A TypeError raised by the
membership test or by len is not in the caught exception tuple and
propagates as an error result. -/
def composeServiceCount : ComposeSource → Except PyExc Nat
  | ComposeSource.emptyPath => Except.ok 0
  | ComposeSource.missingFile => Except.ok 0
  | ComposeSource.unreadable => Except.ok 0
  | ComposeSource.parseError => Except.ok 0
  | ComposeSource.parsed v =>
    catchCaughtExceptions
      (if pyTruthy v then
        match containsServicesKey v with
        | Except.error e => Except.error e
        | Except.ok true =>
          match subscriptServices v with
          | Except.error e => Except.error e
          | Except.ok inner => pyLen inner
        | Except.ok false => Except.ok 0
      else
        Except.ok 0)

/-- C8: evaluation of the code at the failing input, plus the surrounding
behaviour. A compose document that parses to a mapping whose services key
holds the null value (the YAML text of a services key with no entries)
drives _on_compose_file_changed into len applied to None: the TypeError is
not in the caught exception tuple, so the computation raises instead of
producing the advisory 0 the claim requires. On the documented inputs the
count behaves as claimed: 0 for empty path, missing file, unreadable file,
parse error or a document without a services mapping, and the entry count of
the services mapping otherwise. -/
theorem c8_service_count_type_error :
    composeServiceCount
        (ComposeSource.parsed (PyVal.pydict [("services", PyVal.null)]))
      = Except.error PyExc.typeError
    ∧ composeServiceCount ComposeSource.emptyPath = Except.ok 0
    ∧ composeServiceCount ComposeSource.missingFile = Except.ok 0
    ∧ composeServiceCount ComposeSource.unreadable = Except.ok 0
    ∧ composeServiceCount ComposeSource.parseError = Except.ok 0
    ∧ composeServiceCount (ComposeSource.parsed (PyVal.pydict [("x", PyVal.null)]))
      = Except.ok 0
    ∧ composeServiceCount
        (ComposeSource.parsed
          (PyVal.pydict
            [("services", PyVal.pydict [("web", PyVal.null), ("db", PyVal.null)])]))
      = Except.ok 2 := by
  refine ⟨rfl, rfl, rfl, rfl, rfl, ?_, rfl⟩
  rfl

/-- Embedding of the image-name sanitization of _handle_docker_images
(src/artifact_gui/tabs/artifact_tabs/docker.py, lines 1151-1152): two
sequential Python str.replace calls, slash to underscore then colon to
underscore; for a one-character pattern and replacement str.replace is the
per-character substitution written here. -/
def sanitizeImageName (s : String) : String :=
  String.mk
    ((s.data.map (fun c => if c = '/' then '_' else c)).map
      (fun c => if c = ':' then '_' else c))

/-- Embedding of DockerCreator._handle_docker_images
(src/artifact_gui/tabs/artifact_tabs/docker.py, lines 1112-1170). The
resolved oracle models resolve_path composed with the existence check for
file-kind sources (some resolved path exactly when the tarball exists); the
exportOk oracle models the boolean component of _export_docker_image for
docker-kind sources. The result is the emitted queue events and, on
success, the list of kind, source and local path triples in input order:
file-kind entries keep their resolved original path, docker-kind entries
receive the workspace path of the sanitized name with the tar.gz suffix.
Entries of any other kind fall through both branches of the loop body and
are skipped; a file-kind failure logs one line and aborts; a docker-kind
failure logs, sets the status and emits the terminal event before
aborting. -/
def handleDockerImages (resolved : String → Option String)
    (exportOk : String → Bool) (dockerImages : List (String × String))
    (tempDir : String) : List QueueEvent × Option (List ResolvedImage) :=
  match dockerImages with
  | [] => ([], some [])
  | (imageType, imageSource) :: rest =>
    if imageType = "file" then
      match resolved imageSource with
      | none => ([QueueEvent.output], none)
      | some sourcePath =>
        let tail := handleDockerImages resolved exportOk rest tempDir
        (QueueEvent.output :: tail.1,
          tail.2.map (fun paths => ⟨imageType, imageSource, sourcePath⟩ :: paths))
    else if imageType = "docker" then
      let imageFilename := sanitizeImageName imageSource ++ ".tar.gz"
      let imageDest := tempDir ++ "/" ++ imageFilename
      if exportOk imageSource then
        let tail := handleDockerImages resolved exportOk rest tempDir
        (QueueEvent.output :: QueueEvent.output :: tail.1,
          tail.2.map (fun paths => ⟨imageType, imageSource, imageDest⟩ :: paths))
      else
        ([QueueEvent.output, QueueEvent.output, QueueEvent.status,
          QueueEvent.commandFinished], none)
    else
      handleDockerImages resolved exportOk rest tempDir

/-- C6: whenever _handle_docker_images succeeds, every docker-kind
(registry) entry of its result carries the workspace path formed from the
image name with every slash and every colon replaced by an underscore and
the tar.gz suffix appended, and every file-kind (tarball) entry carries the
resolved original path unchanged, with no copy into the workspace; the
two sequential replacements the source performs coincide with the
simultaneous substitution, shown on the concrete name of a registry image
with both separators. -/
theorem c6_image_placement :
    (∀ (resolved : String → Option String) (exportOk : String → Bool)
        (dockerImages : List (String × String)) (tempDir : String)
        (result : List ResolvedImage),
      (handleDockerImages resolved exportOk dockerImages tempDir).2 = some result →
        ∀ img ∈ result,
          (img.kind = "docker" →
            img.path = tempDir ++ "/" ++ (sanitizeImageName img.source ++ ".tar.gz"))
          ∧ (img.kind = "file" → resolved img.source = some img.path))
    ∧ (∀ s : String,
        sanitizeImageName s
          = String.mk (s.data.map (fun c => if c = '/' ∨ c = ':' then '_' else c)))
    ∧ sanitizeImageName "registry.io/team/app:v1.2" = "registry.io_team_app_v1.2" := by
  refine ⟨?_, ?_, by decide⟩
  · intro resolved exportOk dockerImages
    induction dockerImages with
    | nil =>
      intro tempDir result hres img hmem
      simp only [handleDockerImages] at hres
      cases hres
      cases hmem
    | cons hd rest ih =>
      intro tempDir result hres img hmem
      obtain ⟨imageType, imageSource⟩ := hd
      by_cases hfile : imageType = "file"
      · rcases hsrc : resolved imageSource with _ | sourcePath
        · simp [handleDockerImages, hfile, hsrc] at hres
        · rcases htail : (handleDockerImages resolved exportOk rest tempDir).2 with
            _ | paths
          · simp [handleDockerImages, hfile, hsrc, htail] at hres
          · simp only [handleDockerImages, hfile, if_pos rfl, hsrc, htail,
              Option.map_some] at hres
            subst hfile
            cases hres
            rcases List.mem_cons.mp hmem with he | hm
            · subst he
              exact ⟨fun hk =>
                absurd (show ("file" : String) = "docker" from hk) (by decide),
                fun _ => hsrc⟩
            · exact ih tempDir paths htail img hm
      · by_cases hdocker : imageType = "docker"
        · rcases hexp : exportOk imageSource with _ | _
          · simp [handleDockerImages, hfile, hdocker, hexp] at hres
          · rcases htail : (handleDockerImages resolved exportOk rest tempDir).2 with
              _ | paths
            · simp [handleDockerImages, hfile, hdocker, hexp, htail] at hres
            · simp only [handleDockerImages, hfile, hdocker, if_pos rfl, if_neg,
                hexp, htail, Option.map_some, if_true] at hres
              subst hdocker
              cases hres
              rcases List.mem_cons.mp hmem with he | hm
              · subst he
                exact ⟨fun _ => rfl, fun hk =>
                  absurd (show ("docker" : String) = "file" from hk) (by decide)⟩
              · exact ih tempDir paths htail img hm
        · simp only [handleDockerImages, hfile, hdocker, if_neg] at hres
          exact ih tempDir result hres img hmem
  · intro s
    apply stringDataEq
    simp only [sanitizeImageName, List.map_map]
    apply List.map_congr_left
    intro c _
    by_cases h1 : c = '/'
    · simp [h1, Function.comp]
    · by_cases h2 : c = ':'
      · simp [h1, h2, Function.comp]
      · simp [h1, h2, Function.comp]

/-- C6 witness: a successful run over one registry image with both
separators in its name and one pre-existing tarball, with the triples the
theorem describes. -/
theorem c6_image_placement_witness :
    (handleDockerImages (fun s => some s) (fun _ => true)
        [("docker", "team/app:v1"), ("file", "/data/b.tar.gz")] "/ws").2
      = some [⟨"docker", "team/app:v1", "/ws/team_app_v1.tar.gz"⟩,
          ⟨"file", "/data/b.tar.gz", "/data/b.tar.gz"⟩]
    ∧ ((⟨"docker", "team/app:v1", "/ws/team_app_v1.tar.gz"⟩ : ResolvedImage).kind
          = "docker" →
        (⟨"docker", "team/app:v1", "/ws/team_app_v1.tar.gz"⟩ : ResolvedImage).path
          = "/ws" ++ "/" ++ (sanitizeImageName "team/app:v1" ++ ".tar.gz")) := by
  constructor
  · decide
  · exact (c6_image_placement.1 (fun s => some s) (fun _ => true)
      [("docker", "team/app:v1"), ("file", "/data/b.tar.gz")] "/ws"
      [⟨"docker", "team/app:v1", "/ws/team_app_v1.tar.gz"⟩,
        ⟨"file", "/data/b.tar.gz", "/data/b.tar.gz"⟩]
      (by decide) _ (by decide)).1

/-- Embedding of DockerCreator._check_cancellation
(src/artifact_gui/tabs/artifact_tabs/docker.py, lines 1061-1073): when the
executor's cancel flag is set it logs one line, emits the terminal event and
reports true; otherwise it emits nothing and reports false. -/
def checkCancellation (flag : Bool) : List QueueEvent × Bool :=
  if flag then ([QueueEvent.output, QueueEvent.commandFinished], true)
  else ([], false)

/-- Outcome of the external artifact tool invocation inside
_run_rdfm_artifact: the binary missing from the search path (Popen raises
FileNotFoundError, which _run_rdfm_artifact does not catch), or an exit with
the given code and the emptiness of the two captured streams. -/
inductive RdfmOutcome
| toolMissing
| exit (code : Int) (stdoutNonempty stderrNonempty : Bool)

/-- Embedding of DockerCreator._run_rdfm_artifact
(src/artifact_gui/tabs/artifact_tabs/docker.py, lines 1172-1241): one
leading log line, then, unless the exit code is a termination signal
(reported as cancellation before the streams are echoed), the nonempty
captured streams, and the success line plus status or the failure status.
The error value models the uncaught FileNotFoundError propagating to the
caller. -/
def runRdfmArtifact : RdfmOutcome → List QueueEvent × Except Unit Bool
  | RdfmOutcome.toolMissing => ([QueueEvent.output], Except.error ())
  | RdfmOutcome.exit code stdoutNonempty stderrNonempty =>
    if code = -15 ∨ code = -9 then
      ([QueueEvent.output, QueueEvent.output], Except.ok false)
    else
      let streamEvents :=
        (if stdoutNonempty then [QueueEvent.output] else [])
          ++ (if stderrNonempty then [QueueEvent.output] else [])
      if code = 0 then
        ([QueueEvent.output] ++ streamEvents ++ [QueueEvent.output, QueueEvent.status],
          Except.ok true)
      else
        ([QueueEvent.output] ++ streamEvents ++ [QueueEvent.status], Except.ok false)

/-- Environment of one create_artifact run: the cancel flag as read at the
i-th cancellation check of the run, the workspace creation result (none
models tempfile.mkdtemp raising an OSError), the compose-file existence, the
per-path resolution and per-image export oracles, the request lists, the
tarball write outcome, the artifact tool outcome and the workspace removal
outcome (false models shutil.rmtree raising, which the source catches and
logs as a warning). -/
structure BuildEnv where
  cancel : Nat → Bool
  mkdtempResult : Option String
  composeFileExists : Bool
  resolved : String → Option String
  exportOk : String → Bool
  dockerImages : List (String × String)
  additionalFiles : List String
  tarOk : Bool
  rdfmOutcome : RdfmOutcome
  rmtreeOk : Bool

/-- Embedding of DockerCreator._try_create_tarball
(src/artifact_gui/tabs/artifact_tabs/docker.py, lines 981-1044): the leading
log line, one line per image, one line per existing additional path, then on
success the closing line and the tarball path, and on a tar or I/O error
(modelled as deciding the whole write) the error line, the status and the
terminal event. -/
def tryCreateTarball (env : BuildEnv) (tempDir artifactName : String)
    (imagePaths : List ResolvedImage) : List QueueEvent × Option String :=
  let entryEvents :=
    QueueEvent.output
      :: (imagePaths.map (fun _ => QueueEvent.output)
        ++ (env.additionalFiles.filter
            (fun f => (env.resolved f).isSome)).map (fun _ => QueueEvent.output))
  if env.tarOk then
    (entryEvents ++ [QueueEvent.output],
      some (tempDir ++ "/" ++ (artifactName ++ ".tar.gz")))
  else
    (entryEvents ++ [QueueEvent.output, QueueEvent.status, QueueEvent.commandFinished],
      none)

/-- Embedding of DockerCreator._execute_artifact_steps
(src/artifact_gui/tabs/artifact_tabs/docker.py, lines 1290-1354). The
argument k numbers the next cancellation check of the run, feeding the
cancel oracle in call order; short-circuited checks consume no index. The
error value models the uncaught exception of the artifact tool step
propagating to create_artifact. -/
def executeArtifactSteps (env : BuildEnv) (tempDir : String) (k : Nat) :
    List QueueEvent × Except Unit Bool :=
  if !env.composeFileExists then
    ([QueueEvent.output], Except.ok false)
  else
    let chk1 := checkCancellation (env.cancel k)
    if chk1.2 then
      (chk1.1 ++ [QueueEvent.output], Except.ok false)
    else
      let imgs := handleDockerImages env.resolved env.exportOk env.dockerImages tempDir
      match imgs.2 with
      | none => (imgs.1, Except.ok false)
      | some imagePaths =>
        if imagePaths.isEmpty then
          (imgs.1, Except.ok false)
        else
          let chk2 := checkCancellation (env.cancel (k + 1))
          if chk2.2 then
            (imgs.1 ++ chk2.1, Except.ok false)
          else
            let warnEvents :=
              (env.additionalFiles.filter
                (fun f => (env.resolved f).isNone)).map (fun _ => QueueEvent.output)
            let chk3 := checkCancellation (env.cancel (k + 2))
            if chk3.2 then
              (imgs.1 ++ warnEvents ++ chk3.1, Except.ok false)
            else
              let indexEvents :=
                QueueEvent.output :: QueueEvent.output
                  :: (imagePaths.map (fun _ => QueueEvent.output)
                    ++ [QueueEvent.output])
              let chk4 := checkCancellation (env.cancel (k + 3))
              if chk4.2 then
                (imgs.1 ++ warnEvents ++ indexEvents ++ chk4.1, Except.ok false)
              else
                let tar := tryCreateTarball env tempDir "artifact" imagePaths
                match tar.2 with
                | none =>
                  (imgs.1 ++ warnEvents ++ indexEvents ++ tar.1, Except.ok false)
                | some _ =>
                  let chk5 := checkCancellation (env.cancel (k + 4))
                  if chk5.2 then
                    (imgs.1 ++ warnEvents ++ indexEvents ++ tar.1 ++ chk5.1,
                      Except.ok false)
                  else
                    let rdfm := runRdfmArtifact env.rdfmOutcome
                    (imgs.1 ++ warnEvents ++ indexEvents ++ tar.1 ++ rdfm.1, rdfm.2)

/-- Result of one create_artifact run: the queue events in emission order
and whether the finally block reached the workspace removal call. -/
structure RunResult where
  events : List QueueEvent
  cleanupAttempted : Bool

/-- Embedding of DockerCreator.create_artifact
(src/artifact_gui/tabs/artifact_tabs/docker.py, lines 1357-1403): the
starting events, the workspace creation (on failure the except clause logs,
sets the status and emits the terminal event, and the finally block skips
the removal of the never-created workspace), the first cancellation check,
the steps, then the except-clause events when an exception escaped the steps
followed by the unconditional terminal event, and the finally-block removal
log (one line whether the removal succeeds or the caught failure is logged
as a warning). -/
def createArtifact (env : BuildEnv) : RunResult :=
  match env.mkdtempResult with
  | none =>
    ⟨[QueueEvent.clear, QueueEvent.status, QueueEvent.commandStarted,
      QueueEvent.output, QueueEvent.status, QueueEvent.commandFinished], false⟩
  | some tempDir =>
    let pre := [QueueEvent.clear, QueueEvent.status, QueueEvent.commandStarted,
      QueueEvent.output]
    let chk0 := checkCancellation (env.cancel 0)
    let body :=
      if chk0.2 then (chk0.1, false)
      else
        let steps := executeArtifactSteps env tempDir 1
        match steps.2 with
        | Except.ok _ => (chk0.1 ++ steps.1, false)
        | Except.error _ => (chk0.1 ++ steps.1, true)
    let exceptEvents := if body.2 then [QueueEvent.output, QueueEvent.status] else []
    ⟨pre ++ body.1 ++ exceptEvents ++ [QueueEvent.commandFinished]
      ++ [QueueEvent.output], true⟩

/-- Recognizer of the terminal command-finished queue event. -/
def isTerminalEvent : QueueEvent → Bool
  | QueueEvent.commandFinished => true
  | _ => false

/-- Number of terminal command-finished events in an event list. -/
def finishedCount (evs : List QueueEvent) : Nat :=
  (evs.filter isTerminalEvent).length

/-- The terminal-event count is additive over concatenation. -/
theorem finishedCountAppend (a b : List QueueEvent) :
    finishedCount (a ++ b) = finishedCount a + finishedCount b := by
  simp [finishedCount, List.filter_append]

/-- C2: counterexample. On a run whose cancel flag is already set at the
first cancellation check of create_artifact, _check_cancellation emits the
terminal command-finished event and create_artifact then emits it again
unconditionally: the run emits the terminal event twice, not exactly
once. -/
theorem c2_terminal_event_twice :
    finishedCount
      (createArtifact
        ⟨fun _ => true, some "/tmp/rdfm_docker_0", true, fun s => some s,
          fun _ => true, [("file", "a.tar.gz")], [], true,
          RdfmOutcome.exit 0 true false, true⟩).events = 2 := by
  decide

/-- C2 amended: on every terminal outcome of create_artifact — success,
failure at any step, cancellation, workspace-creation failure or the
uncaught artifact-tool exception — the removal of the temporary workspace is
attempted exactly when the workspace was created, a removal failure being
only logged as one warning line and never escalated (the run completes
normally for either removal outcome), and the terminal command-finished
event is emitted at least once; exactly once is not guaranteed, since a
cancelled run or a failed step that already emitted the terminal event is
followed by the unconditional terminal emission of create_artifact. -/
theorem c2_cleanup_and_terminal_emission :
    ∀ env : BuildEnv,
      (createArtifact env).cleanupAttempted = env.mkdtempResult.isSome
        ∧ 1 ≤ finishedCount (createArtifact env).events := by
  intro env
  rcases hmk : env.mkdtempResult with _ | tempDir
  · constructor
    · simp [createArtifact, hmk]
    · simp [createArtifact, hmk, finishedCount, isTerminalEvent, List.filter]
  · constructor
    · simp [createArtifact, hmk]
    · simp only [createArtifact, hmk]
      rw [finishedCountAppend, finishedCountAppend, finishedCountAppend,
        finishedCountAppend]
      have hone : finishedCount [QueueEvent.commandFinished] = 1 := rfl
      rw [hone]
      omega

end ArtifactGui
